import Mathlib

/-!
Verification of the ATS/LinkedIn optimizer scoring and billing core.

The definitions below are a shallow embedding of the JavaScript sources:
  src/backend/routes/cv.js, src/backend/routes/linkedin.js,
  src/backend/models/CVAnalysis.js, src/backend/models/LinkedInAnalysis.js,
  src/backend/models/User.js, src/backend/routes/payments.js,
  src/backend/middleware/auth.js.
JS numbers are modelled as exact rationals, JS strings as Lean strings,
nullable / possibly-undefined fields as Option, and the case-insensitive
regex tests of the sources (which are all alternations of literals, plus
a digit-run pattern) as executable Boolean functions.
-/

namespace ATS

/-- JS Math.round: nearest integer, ties toward positive infinity
(Math.round(x) behaves as floor(x + 1/2) on the values arising here). -/
def jsRound (q : ℚ) : ℤ := ⌊q + 1/2⌋

/-- Spec-side definition, following the spec words "round-half-away-from-zero
to nearest integer" (section 4.2).  Kept separate from jsRound so the
refinement claim compares the code rounding against the spec rounding. -/
def roundHalfAwayFromZero (q : ℚ) : ℤ := if 0 ≤ q then ⌊q + 1/2⌋ else -⌊-q + 1/2⌋

/-- JS String.prototype.toLowerCase restricted to the ASCII range (all
needles in the sources are ASCII). -/
def jsToLower (s : String) : String := ⟨s.data.map Char.toLower⟩

/-- The first list is a leading segment of the second (character lists). -/
def charsStart : List Char → List Char → Bool
  | [], _ => true
  | _ :: _, [] => false
  | a :: as, b :: bs => a == b && charsStart as bs

/-- The needle occurs somewhere inside the haystack (character lists). -/
def charsContain (hay needle : List Char) : Bool :=
  match hay with
  | [] => needle.isEmpty
  | _ :: rest => charsStart needle hay || charsContain rest needle

/-- JS String.prototype.includes. -/
def strIncludes (hay needle : String) : Bool := charsContain hay.data needle.data

/-- Case-insensitive test of a regex that is an alternation of literal
words, e.g. /email|phone|linkedin|github/i.test(s). -/
def icTest (needles : List String) (s : String) : Bool :=
  needles.any fun n => strIncludes (jsToLower s) (jsToLower n)

/-- Whether a decimal digit is immediately followed by the literal lit:
the test of regex fragments such as \d+%, \d+\+ and "\d+ years" (a digit
run followed by lit matches iff some single digit is directly followed by
lit). -/
def digitThenLit (lit : List Char) : List Char → Bool
  | [] => false
  | a :: rest => (a.isDigit && charsStart lit rest) || digitThenLit lit rest

/-- Head character is a decimal digit. -/
def headIsDigit : List Char → Bool
  | a :: _ => a.isDigit
  | [] => false

/-- Whether the literal lit occurs immediately followed by a decimal digit:
the test of the regex fragment "built \d+". -/
def litThenDigit (lit : List Char) : List Char → Bool
  | [] => false
  | a :: rest =>
    (charsStart lit (a :: rest) && headIsDigit (List.drop lit.length (a :: rest)))
      || litThenDigit lit rest

/-- JS \s on the characters the sources can meet (ASCII whitespace). -/
def jsIsWs (c : Char) : Bool :=
  c == ' ' || c == '\t' || c == '\n' || c == '\r' || c == '\x0b' || c == '\x0c'

/-- Number of maximal runs of non-whitespace characters. -/
def nonWsRuns : List Char → Bool → Nat
  | [], _ => 0
  | c :: rest, inRun =>
    if jsIsWs c then nonWsRuns rest false
    else (if inRun then 0 else 1) + nonWsRuns rest true

/-- Length of text.split(/\s+/) in JS: the empty string gives [""], and a
leading or trailing separator contributes an extra empty piece. -/
def jsSplitWsLen (s : String) : Nat :=
  match s.data with
  | [] => 1
  | c :: rest =>
    nonWsRuns (c :: rest) false
      + (if jsIsWs c then 1 else 0)
      + (if jsIsWs (List.getLastD rest c) then 1 else 0)

/-! ### CV category scorers (src/backend/routes/cv.js, lines 313-419) -/

/-- The fixed keyword catalog of analyzeKeywords. -/
def commonTechKeywords : List String :=
  ["javascript", "python", "java", "react", "node.js", "angular", "vue",
   "typescript", "html", "css", "sql", "mongodb", "postgresql", "mysql",
   "aws", "docker", "kubernetes", "git", "agile", "scrum", "rest", "api",
   "microservices", "cloud", "devops", "ci/cd", "testing", "unit testing",
   "integration testing", "tdd", "bdd", "redux", "express", "spring",
   "django", "flask", "laravel", "php", "c++", "c#", ".net", "ruby",
   "rails", "go", "rust", "scala", "kotlin", "swift", "ios", "android",
   "mobile", "responsive", "bootstrap", "tailwind", "sass", "less",
   "webpack", "babel", "npm", "yarn", "jenkins", "github", "gitlab",
   "jira", "confluence", "slack", "team collaboration", "leadership",
   "problem solving", "debugging", "optimization", "performance",
   "security", "authentication", "authorization", "oauth", "jwt"]

structure KeywordsResult where
  found : List String
  missing : List String
  score : ℚ
deriving DecidableEq

/-- cv.js analyzeKeywords. -/
def analyzeKeywords (text : String) : KeywordsResult :=
  let textLower := jsToLower text
  let found := commonTechKeywords.filter fun k => strIncludes textLower (jsToLower k)
  let missing :=
    (commonTechKeywords.filter fun k => !strIncludes textLower (jsToLower k)).take 10
  { found := found, missing := missing,
    score := min 100 ((found.length : ℚ) / 20 * 100) }

structure FormattingResult where
  hasProperSections : Bool
  hasContactInfo : Bool
  hasSkillsSection : Bool
  hasExperienceSection : Bool
  score : ℚ
deriving DecidableEq

/-- cv.js analyzeFormatting. -/
def analyzeFormatting (text : String) : FormattingResult :=
  let hasContactInfo := icTest ["email", "phone", "linkedin", "github"] text
  let hasSkillsSection := icTest ["skills", "technologies", "technical"] text
  let hasExperienceSection := icTest ["experience", "work", "employment", "position"] text
  let hasProperSections := hasContactInfo && hasSkillsSection && hasExperienceSection
  { hasProperSections := hasProperSections, hasContactInfo := hasContactInfo,
    hasSkillsSection := hasSkillsSection, hasExperienceSection := hasExperienceSection,
    score := cond hasContactInfo 25 0 + cond hasSkillsSection 25 0
      + cond hasExperienceSection 25 0 + cond hasProperSections 25 0 }

structure ContentResult where
  hasQuantifiableAchievements : Bool
  hasRelevantExperience : Bool
  hasEducationSection : Bool
  wordCount : ℕ
  score : ℚ
deriving DecidableEq

/-- cv.js analyzeContent. -/
def analyzeContent (text : String) : ContentResult :=
  let hasQuantifiableAchievements :=
    digitThenLit ['%'] text.data || digitThenLit ['+'] text.data
      || icTest ["increased", "improved", "reduced", "achieved"] text
  let hasRelevantExperience :=
    icTest ["developer", "engineer", "programmer", "software", "technical"] text
  let hasEducationSection :=
    icTest ["education", "degree", "university", "college", "bachelor", "master"] text
  let wordCount := jsSplitWsLen text
  { hasQuantifiableAchievements := hasQuantifiableAchievements,
    hasRelevantExperience := hasRelevantExperience,
    hasEducationSection := hasEducationSection,
    wordCount := wordCount,
    score := cond hasQuantifiableAchievements 30 0 + cond hasRelevantExperience 30 0
      + cond hasEducationSection 20 0
      + (if 300 ≤ wordCount ∧ wordCount ≤ 800 then 20 else 0) }

structure TechnicalResult where
  programmingLanguages : List String
  frameworks : List String
  tools : List String
  databases : List String
  score : ℚ
deriving DecidableEq

/-- cv.js analyzeTechnicalSkills. -/
def analyzeTechnicalSkills (text : String) : TechnicalResult :=
  let tl := jsToLower text
  let programmingLanguages :=
    ["javascript", "python", "java", "typescript", "c++", "c#", "php", "ruby", "go"].filter
      fun l => strIncludes tl l
  let frameworks :=
    ["react", "angular", "vue", "node.js", "express", "django", "flask", "spring",
     "laravel"].filter fun fw => strIncludes tl fw
  let tools :=
    ["git", "docker", "kubernetes", "aws", "jenkins", "jira", "webpack"].filter
      fun tool => strIncludes tl tool
  let databases :=
    ["mongodb", "postgresql", "mysql", "redis", "elasticsearch"].filter
      fun db => strIncludes tl db
  let totalSkills :=
    programmingLanguages.length + frameworks.length + tools.length + databases.length
  { programmingLanguages := programmingLanguages, frameworks := frameworks,
    tools := tools, databases := databases,
    score := min 100 ((totalSkills : ℚ) / 10 * 100) }

structure ATSAnalysis where
  keywords : KeywordsResult
  formatting : FormattingResult
  content : ContentResult
  technical : TechnicalResult
deriving DecidableEq

/-- cv.js performATSAnalysis. -/
def performATSAnalysis (text : String) : ATSAnalysis :=
  { keywords := analyzeKeywords text, formatting := analyzeFormatting text,
    content := analyzeContent text, technical := analyzeTechnicalSkills text }

/-! ### LinkedIn category scorers (src/backend/routes/linkedin.js, lines 348-437) -/

/-- JS truthiness of a possibly-absent string: undefined and "" are falsy. -/
def truthyStr (o : Option String) : Bool := !(o.getD "" == "")

structure ExperienceItem where
  title : Option String
  company : Option String
  duration : Option String
  description : Option String

structure EducationItem where
  school : Option String
  degree : Option String
  field : Option String

/-- The structured profile fields of a LinkedInAnalysis document.  The
experience and skills lists are modelled as plain lists (the handlers
normalise an absent list with "|| []" before scoring). -/
structure ProfileData where
  headline : Option String
  summary : Option String
  experience : List ExperienceItem
  skills : List String
  education : List EducationItem
  connections : Option ℕ
  profileViews : Option ℕ

structure HeadlineResult where
  hasKeywords : Bool
  isCompelling : Bool
  length : ℕ
  score : ℚ

/-- linkedin.js analyzeHeadline. -/
def analyzeHeadline (headline : String) : HeadlineResult :=
  let hasKeywords :=
    icTest ["developer", "engineer", "programmer", "software", "technical", "react",
      "javascript", "python", "java"] headline
  let isCompelling :=
    decide (headline.length > 20) && icTest ["|", "at", "specializing", "expert"] headline
  let length := headline.length
  { hasKeywords := hasKeywords, isCompelling := isCompelling, length := length,
    score := cond hasKeywords 40 0 + cond isCompelling 30 0
      + (if 50 ≤ length ∧ length ≤ 120 then 30 else 0) }

structure SummaryResult where
  hasCallToAction : Bool
  hasKeywords : Bool
  hasAchievements : Bool
  length : ℕ
  score : ℚ

/-- linkedin.js analyzeSummary. -/
def analyzeSummary (summary : String) : SummaryResult :=
  let hasCallToAction := icTest ["contact", "connect", "reach out", "let\x27s talk"] summary
  let hasKeywords :=
    icTest ["developer", "engineer", "experience", "skilled", "expert", "passionate"] summary
  let hasAchievements :=
    digitThenLit ['%'] summary.data
      || digitThenLit (" years".data) (jsToLower summary).data
      || icTest ["increased", "improved", "built", "developed"] summary
  let length := summary.length
  { hasCallToAction := hasCallToAction, hasKeywords := hasKeywords,
    hasAchievements := hasAchievements, length := length,
    score := cond hasCallToAction 20 0 + cond hasKeywords 30 0 + cond hasAchievements 30 0
      + (if 200 ≤ length ∧ length ≤ 2000 then 20 else 0) }

structure ExperienceResult where
  hasQuantifiableResults : Bool
  hasRelevantKeywords : Bool
  isWellStructured : Bool
  count : ℕ
  score : ℚ

/-- linkedin.js analyzeExperience. -/
def analyzeExperience (experience : List ExperienceItem) : ExperienceResult :=
  let hasQuantifiableResults := experience.any fun exp =>
    digitThenLit ['%'] (exp.description.getD "").data
      || digitThenLit ['+'] (exp.description.getD "").data
      || icTest ["increased", "improved", "reduced"] (exp.description.getD "")
      || litThenDigit ("built ".data) (jsToLower (exp.description.getD "")).data
  let hasRelevantKeywords := experience.any fun exp =>
    icTest ["developer", "engineer", "software", "technical", "programming"]
      (exp.title.getD "")
  let isWellStructured :=
    decide (experience.length > 0) && experience.all fun exp =>
      truthyStr exp.title && truthyStr exp.company && truthyStr exp.duration
  let count := experience.length
  { hasQuantifiableResults := hasQuantifiableResults,
    hasRelevantKeywords := hasRelevantKeywords, isWellStructured := isWellStructured,
    count := count,
    score := cond hasQuantifiableResults 30 0 + cond hasRelevantKeywords 30 0
      + cond isWellStructured 25 0 + (if 2 ≤ count then 15 else 0) }

structure SkillsResult where
  hasRelevantSkills : Bool
  hasTechnicalSkills : Bool
  count : ℕ
  score : ℚ

/-- The techSkills catalog of linkedin.js analyzeSkills. -/
def liTechSkills : List String :=
  ["javascript", "python", "java", "react", "node.js", "angular", "vue", "typescript"]

/-- linkedin.js analyzeSkills. -/
def analyzeSkills (skills : List String) : SkillsResult :=
  let hasRelevantSkills := skills.any fun skill =>
    liTechSkills.any fun tech => strIncludes (jsToLower skill) tech
  let hasTechnicalSkills := decide (skills.length ≥ 5)
  let count := skills.length
  { hasRelevantSkills := hasRelevantSkills, hasTechnicalSkills := hasTechnicalSkills,
    count := count,
    score := cond hasRelevantSkills 40 0 + cond hasTechnicalSkills 30 0
      + (if 10 ≤ count then 30 else 0) }

structure EngagementResult where
  hasRecentActivity : Bool
  hasRecommendations : Bool
  connectionCount : ℕ
  score : ℚ

/-- linkedin.js analyzeEngagement: the two activity facts are hardcoded
true in the source (mock values). -/
def analyzeEngagement (profileData : ProfileData) : EngagementResult :=
  let hasRecentActivity := true
  let hasRecommendations := true
  let connectionCount := profileData.connections.getD 0
  { hasRecentActivity := hasRecentActivity, hasRecommendations := hasRecommendations,
    connectionCount := connectionCount,
    score := cond hasRecentActivity 30 0 + cond hasRecommendations 30 0
      + (if 500 ≤ connectionCount then 40
         else if 100 ≤ connectionCount then 20 else 0) }

structure LIAnalysis where
  headline : HeadlineResult
  summary : SummaryResult
  experience : ExperienceResult
  skills : SkillsResult
  engagement : EngagementResult

/-- linkedin.js performLinkedInAnalysis. -/
def performLinkedInAnalysis (profileData : ProfileData) : LIAnalysis :=
  { headline := analyzeHeadline (profileData.headline.getD ""),
    summary := analyzeSummary (profileData.summary.getD ""),
    experience := analyzeExperience profileData.experience,
    skills := analyzeSkills profileData.skills,
    engagement := analyzeEngagement profileData }

/-! ### Composite score aggregators (CVAnalysis.js 96-119, LinkedInAnalysis.js 115-141) -/

/-- The stored per-category score fields of a CVAnalysis document; each is a
mongoose Number, possibly absent. -/
structure CVScoreFields where
  keywords : Option ℚ
  formatting : Option ℚ
  content : Option ℚ
  technical : Option ℚ

/-- JS (x.score || 0): an absent sub-score is read as 0. -/
def orZero (o : Option ℚ) : ℚ := o.getD 0

/-- CVAnalysis.js calculateATSScore: sets and returns the composite score. -/
def calculateATSScore (s : CVScoreFields) : ℤ :=
  jsRound (orZero s.keywords * 0.35 + orZero s.formatting * 0.25
    + orZero s.content * 0.25 + orZero s.technical * 0.15)

/-- The stored per-category score fields of a LinkedInAnalysis document. -/
structure LIScoreFields where
  headline : Option ℚ
  summary : Option ℚ
  experience : Option ℚ
  skills : Option ℚ
  engagement : Option ℚ

/-- LinkedInAnalysis.js calculateOptimizationScore. -/
def calculateOptimizationScore (s : LIScoreFields) : ℤ :=
  jsRound (orZero s.headline * 0.25 + orZero s.summary * 0.25
    + orZero s.experience * 0.25 + orZero s.skills * 0.15
    + orZero s.engagement * 0.10)

/-! ### User model and usage/plan gate (src/backend/models/User.js) -/

inductive Plan where
  | free
  | oneTime
  | basic
  | pro
deriving DecidableEq

structure Usage where
  cvScans : ℤ
  linkedinScans : ℤ
  monthlyResetDate : ℤ
deriving DecidableEq

/-- The User billing fields used by the gate and the webhook handlers.
planStatus is kept as a string because handleSubscriptionUpdated and
handleSubscriptionPaymentFailed write provider strings into it; the
schema enum is modelled separately by isValidUserPlanStatus. -/
structure User where
  plan : Plan
  planStatus : String
  subscriptionId : Option String
  customerId : Option String
  planExpiresAt : Option ℤ
  usage : Usage
deriving DecidableEq

/-- User.js line 122: this.planExpiresAt && now > this.planExpiresAt
(dates as epoch milliseconds; a null expiry is falsy). -/
def planExpired (now : ℤ) (planExpiresAt : Option ℤ) : Bool :=
  match planExpiresAt with
  | some t => decide (t < now)
  | none => false

/-- User.js canPerformAction (lines 118-153).  The switch on the action
string is modelled by an if-chain; each scan case's trailing
"return false" is unreachable because the plan enum is exhaustive. -/
def canPerformAction (now : ℤ) (u : User) (action : String) : Bool :=
  if planExpired now u.planExpiresAt then false
  else if action == "cv_scan" then
    match u.plan with
    | .free => false
    | .oneTime => decide (u.usage.cvScans < 1)
    | .basic => decide (u.usage.cvScans < 5)
    | .pro => true
  else if action == "linkedin_scan" then
    match u.plan with
    | .free => false
    | .oneTime => decide (u.usage.linkedinScans < 1)
    | .basic => decide (u.usage.linkedinScans < 5)
    | .pro => true
  else if action == "pdf_export" then decide (u.plan ≠ .free)
  else if action == "api_access" then decide (u.plan = .pro)
  else if action == "comparison_view" then decide (u.plan = .pro)
  else false

/-- middleware/auth.js requirePlan (lines 70-99): the request passes when
the user's plan is in the route's list and the plan has not expired. -/
def requirePlanAllows (plans : List Plan) (now : ℤ) (u : User) : Bool :=
  plans.contains u.plan && !planExpired now u.planExpiresAt

/-- cv.js line 101: user.usage.cvScans += 1 after a successful scan. -/
def incCvScans (u : User) : User :=
  { u with usage := { u.usage with cvScans := u.usage.cvScans + 1 } }

/-- linkedin.js line 63: user.usage.linkedinScans += 1. -/
def incLinkedinScans (u : User) : User :=
  { u with usage := { u.usage with linkedinScans := u.usage.linkedinScans + 1 } }

/-! ### Subscription event reconciler (src/backend/routes/payments.js) -/

/-- The User.js planStatus schema enum (lines 32-36). -/
def userPlanStatusEnum : List String := ["active", "cancelled", "expired", "pending"]

def isValidUserPlanStatus (s : String) : Bool := userPlanStatusEnum.contains s

/-- mongoose user.save(): enum validation of the planStatus path; a value
outside the schema enum makes the save fail (ValidationError), so the
document is not persisted. -/
def saveUser (u : User) : Option User :=
  if isValidUserPlanStatus u.planStatus then some u else none

/-- The fields of a subscription_created / subscription_expired webhook
payload used by the handlers. -/
structure SubscriptionEvent where
  id : String
  customerId : String
  variantId : String
  status : String
  renewsAt : ℤ

/-- Modelled from the spec: PRODUCT_VARIANTS, the variant-to-plan mapping
table read by payments.js getPlanFromVariantId, is referenced there but
not defined anywhere under the repository sources (it would be
environment configuration).  Spec 4.5: "a fixed mapping table from
provider product/variant identifiers to one-time, basic, pro; unmapped
identifier defaults to one-time". -/
structure ProductVariants where
  oneTimeVariant : String
  basicVariant : String
  proVariant : String

/-- payments.js getPlanFromVariantId (lines 412-419): object-literal
lookup with default "one-time"; with duplicate variant ids the later
object key wins, hence the pro-first test order. -/
def getPlanFromVariantId (pv : ProductVariants) (variantId : String) : Plan :=
  if variantId == pv.proVariant then .pro
  else if variantId == pv.basicVariant then .basic
  else if variantId == pv.oneTimeVariant then .oneTime
  else .oneTime

/-- payments.js handleSubscriptionCreated (lines 261-302): the state
transition applied to the user resolved from the event email.  The
usage counters are reset unconditionally; no event id is recorded. -/
def handleSubscriptionCreated (pv : ProductVariants) (ev : SubscriptionEvent)
    (u : User) : User :=
  { u with
    plan := getPlanFromVariantId pv ev.variantId
    planStatus := if ev.status == "active" then "active" else "pending"
    subscriptionId := some ev.id
    customerId := some ev.customerId
    planExpiresAt := some ev.renewsAt
    usage := { cvScans := 0, linkedinScans := 0,
               monthlyResetDate := u.usage.monthlyResetDate } }

/-- payments.js handleSubscriptionExpired (lines 354-374): the transition
applied to the user resolved from the event subscription id. -/
def handleSubscriptionExpired (u : User) : User :=
  { u with plan := .free, planStatus := "expired" }

/-- payments.js handleSubscriptionPaymentFailed (lines 395-409): sets
planStatus to "past_due" on the in-memory document before save. -/
def handleSubscriptionPaymentFailed (u : User) : User :=
  { u with planStatus := "past_due" }

/-! ### Suggestion generator (CVAnalysis.js generateSuggestions, lines 122-171) -/

structure Suggestion where
  category : String
  priority : String
  title : String
  description : String
  impact : ℤ
deriving DecidableEq

def generateSuggestionsCV (a : ATSAnalysis) : List Suggestion :=
  (if a.keywords.score < 70 then
    [{ category := "keywords", priority := "high", title := "Add Missing Keywords",
       description := "Include these important keywords: "
         ++ String.intercalate ", " (a.keywords.missing.take 5), impact := 15 }]
   else [])
  ++ (if !a.formatting.hasProperSections then
    [{ category := "formatting", priority := "high", title := "Improve CV Structure",
       description := "Add clear sections: Contact Info, Summary, Experience, Skills, Education",
       impact := 12 }]
   else [])
  ++ (if !a.content.hasQuantifiableAchievements then
    [{ category := "content", priority := "medium", title := "Add Quantifiable Achievements",
       description := "Include numbers, percentages, and measurable results in your experience",
       impact := 10 }]
   else [])
  ++ (if a.technical.programmingLanguages.length < 3 then
    [{ category := "technical", priority := "medium", title := "Expand Technical Skills",
       description := "Add more relevant programming languages and frameworks", impact := 8 }]
   else [])

/-- The stored analysis score fields, as read back by calculateATSScore. -/
def atsScoresOf (a : ATSAnalysis) : CVScoreFields :=
  { keywords := some a.keywords.score, formatting := some a.formatting.score,
    content := some a.content.score, technical := some a.technical.score }

/-- The stored analysis score fields of a LinkedIn analysis. -/
def liScoresOf (a : LIAnalysis) : LIScoreFields :=
  { headline := some a.headline.score, summary := some a.summary.score,
    experience := some a.experience.score, skills := some a.skills.score,
    engagement := some a.engagement.score }

/-! ### Compare endpoints (cv.js 252-310, linkedin.js 244-311) -/

/-- The stored CVAnalysis fields read by the compare handler. -/
structure CVStoredDoc where
  atsScore : ℤ
  analysis : ATSAnalysis
  optimizedText : Option String

structure CompareResult where
  beforeScore : ℤ
  afterScore : ℤ
  improvement : ℤ
  improvements : List String

/-- cv.js GET /compare/:id handler body (after the pro-plan middleware and
document lookup): re-runs the pipeline on the optimized text. -/
def cvCompare (doc : CVStoredDoc) : Except String CompareResult :=
  match doc.optimizedText with
  | none => .error "Optimized version not available. Please optimize first."
  | some text =>
    if text == "" then .error "Optimized version not available. Please optimize first."
    else
      let beforeScore := doc.atsScore
      let afterAnalysis := performATSAnalysis text
      let afterScore := jsRound (afterAnalysis.keywords.score * 0.35
        + afterAnalysis.formatting.score * 0.25 + afterAnalysis.content.score * 0.25
        + afterAnalysis.technical.score * 0.15)
      let improvements :=
        (if afterAnalysis.keywords.score > doc.analysis.keywords.score then
          ["Improved keyword optimization"] else [])
        ++ (if afterAnalysis.content.score > doc.analysis.content.score then
          ["Enhanced content quality"] else [])
        ++ (if afterAnalysis.technical.score > doc.analysis.technical.score then
          ["Better technical skills presentation"] else [])
      .ok { beforeScore := beforeScore, afterScore := afterScore,
            improvement := afterScore - beforeScore, improvements := improvements }

/-- The optimizedContent fields used by the LinkedIn compare handler. -/
structure OptimizedContent where
  headline : Option String
  summary : Option String

/-- The stored LinkedInAnalysis fields read by the compare handler. -/
structure LIStoredDoc where
  optimizationScore : ℤ
  analysis : LIAnalysis
  profileData : ProfileData
  optimizedContent : Option OptimizedContent

/-- linkedin.js GET /compare/:id handler body: re-scores the profile with
the optimized headline and summary spliced in. -/
def liCompare (doc : LIStoredDoc) : Except String CompareResult :=
  match doc.optimizedContent with
  | none => .error "Optimized content not available. Please optimize first."
  | some oc =>
    if !truthyStr oc.headline then
      .error "Optimized content not available. Please optimize first."
    else
      let beforeScore := doc.optimizationScore
      let optimizedProfileData :=
        { doc.profileData with headline := oc.headline, summary := oc.summary }
      let afterAnalysis := performLinkedInAnalysis optimizedProfileData
      let afterScore := jsRound (afterAnalysis.headline.score * 0.25
        + afterAnalysis.summary.score * 0.25 + afterAnalysis.experience.score * 0.25
        + afterAnalysis.skills.score * 0.15 + afterAnalysis.engagement.score * 0.10)
      let improvements :=
        (if afterAnalysis.headline.score > doc.analysis.headline.score then
          ["Improved headline optimization"] else [])
        ++ (if afterAnalysis.summary.score > doc.analysis.summary.score then
          ["Enhanced summary content"] else [])
        ++ (if afterAnalysis.skills.score > doc.analysis.skills.score then
          ["Better skills presentation"] else [])
      .ok { beforeScore := beforeScore, afterScore := afterScore,
            improvement := afterScore - beforeScore, improvements := improvements }

/-! ### CV analyze and get-analysis endpoints (cv.js 31-126 and 129-154) -/

/-- The persisted CVAnalysis record produced by the analyze handler. -/
structure CVRecord where
  extractedText : String
  atsScore : ℤ
  analysis : ATSAnalysis
  suggestions : List Suggestion
deriving DecidableEq

/-- The JSON payload the CV handlers send back (the fields the free-plan
truncation touches, plus the locked flag the handler sets). -/
structure CVResponse where
  atsScore : ℤ
  foundKeywords : List String
  missingKeywords : List String
  suggestions : List Suggestion
  locked : Bool
deriving DecidableEq

/-- cv.js POST /analyze: plan middleware, gate check, empty-text check,
scoring, persistence of the full record, then the free-plan truncation of
the response (cv.js 104-111).  Returns the persisted record together with
the response payload. -/
def cvAnalyze (now : ℤ) (u : User) (extractedText : String) :
    Except String (CVRecord × CVResponse) :=
  if !requirePlanAllows [Plan.oneTime, Plan.basic, Plan.pro] now u then
    .error "This feature requires one of the following plans: one-time, basic, pro"
  else if !canPerformAction now u "cv_scan" then
    .error "CV scan limit reached for your plan"
  else if extractedText.trim == "" then
    .error "No text content found in the file"
  else
    let analysis := performATSAnalysis extractedText
    let atsScore := calculateATSScore (atsScoresOf analysis)
    let suggestions := generateSuggestionsCV analysis
    let record : CVRecord :=
      { extractedText := extractedText, atsScore := atsScore,
        analysis := analysis, suggestions := suggestions }
    let response : CVResponse :=
      if u.plan = .free then
        { atsScore := atsScore,
          foundKeywords := analysis.keywords.found.take 3,
          missingKeywords := analysis.keywords.missing.take 3,
          suggestions := suggestions.take 2, locked := true }
      else
        { atsScore := atsScore,
          foundKeywords := analysis.keywords.found,
          missingKeywords := analysis.keywords.missing,
          suggestions := suggestions, locked := false }
    .ok (record, response)

/-- cv.js GET /analysis/:id: the stored record is truncated in memory for
free-plan users before being sent; no save happens afterwards, so the
persisted record stays full. -/
def getCvAnalysis (u : User) (rec : CVRecord) : CVResponse :=
  if u.plan = .free then
    { atsScore := rec.atsScore,
      foundKeywords := rec.analysis.keywords.found.take 3,
      missingKeywords := rec.analysis.keywords.missing.take 3,
      suggestions := rec.suggestions.take 2, locked := true }
  else
    { atsScore := rec.atsScore,
      foundKeywords := rec.analysis.keywords.found,
      missingKeywords := rec.analysis.keywords.missing,
      suggestions := rec.suggestions, locked := false }

/-! ### Projection lemmas: each scorer's score field, written in terms of its
fact fields (all hold by definitional unfolding). -/

theorem analyzeKeywords_score (t : String) :
    (analyzeKeywords t).score
      = min 100 (((analyzeKeywords t).found.length : ℚ) / 20 * 100) := rfl

theorem analyzeFormatting_score (t : String) :
    (analyzeFormatting t).score
      = cond (analyzeFormatting t).hasContactInfo 25 0
        + cond (analyzeFormatting t).hasSkillsSection 25 0
        + cond (analyzeFormatting t).hasExperienceSection 25 0
        + cond (analyzeFormatting t).hasProperSections 25 0 := rfl

theorem analyzeContent_score (t : String) :
    (analyzeContent t).score
      = cond (analyzeContent t).hasQuantifiableAchievements 30 0
        + cond (analyzeContent t).hasRelevantExperience 30 0
        + cond (analyzeContent t).hasEducationSection 20 0
        + (if 300 ≤ (analyzeContent t).wordCount ∧ (analyzeContent t).wordCount ≤ 800
            then 20 else 0) := rfl

theorem analyzeTechnicalSkills_score (t : String) :
    (analyzeTechnicalSkills t).score
      = min 100 ((((analyzeTechnicalSkills t).programmingLanguages.length
          + (analyzeTechnicalSkills t).frameworks.length
          + (analyzeTechnicalSkills t).tools.length
          + (analyzeTechnicalSkills t).databases.length : ℕ) : ℚ) / 10 * 100) := rfl

theorem analyzeHeadline_score (h : String) :
    (analyzeHeadline h).score
      = cond (analyzeHeadline h).hasKeywords 40 0
        + cond (analyzeHeadline h).isCompelling 30 0
        + (if 50 ≤ (analyzeHeadline h).length ∧ (analyzeHeadline h).length ≤ 120
            then 30 else 0) := rfl

theorem analyzeSummary_score (s : String) :
    (analyzeSummary s).score
      = cond (analyzeSummary s).hasCallToAction 20 0
        + cond (analyzeSummary s).hasKeywords 30 0
        + cond (analyzeSummary s).hasAchievements 30 0
        + (if 200 ≤ (analyzeSummary s).length ∧ (analyzeSummary s).length ≤ 2000
            then 20 else 0) := rfl

theorem analyzeExperience_score (e : List ExperienceItem) :
    (analyzeExperience e).score
      = cond (analyzeExperience e).hasQuantifiableResults 30 0
        + cond (analyzeExperience e).hasRelevantKeywords 30 0
        + cond (analyzeExperience e).isWellStructured 25 0
        + (if 2 ≤ (analyzeExperience e).count then 15 else 0) := rfl

theorem analyzeSkills_score (sk : List String) :
    (analyzeSkills sk).score
      = cond (analyzeSkills sk).hasRelevantSkills 40 0
        + cond (analyzeSkills sk).hasTechnicalSkills 30 0
        + (if 10 ≤ (analyzeSkills sk).count then 30 else 0) := rfl

theorem analyzeEngagement_score (p : ProfileData) :
    (analyzeEngagement p).score
      = (30 : ℚ) + 30
        + (if 500 ≤ (analyzeEngagement p).connectionCount then 40
           else if 100 ≤ (analyzeEngagement p).connectionCount then 20 else 0) := rfl

/-! ### Generic bounds for point-award terms -/

theorem cond_zero_nonneg (b : Bool) (x : ℚ) (hx : 0 ≤ x) : 0 ≤ cond b x 0 := by
  cases b <;> simp [hx]

theorem cond_zero_le (b : Bool) (x : ℚ) (hx : 0 ≤ x) : cond b x 0 ≤ x := by
  cases b <;> simp [hx]

theorem ite_zero_nonneg (P : Prop) [Decidable P] (x : ℚ) (hx : 0 ≤ x) :
    0 ≤ if P then x else 0 := by
  split <;> simp [hx]

theorem ite_zero_le (P : Prop) [Decidable P] (x : ℚ) (hx : 0 ≤ x) :
    (if P then x else 0) ≤ x := by
  split <;> simp [hx]

/-! ### Range bounds for every category scorer -/

theorem analyzeKeywords_score_bounds (t : String) :
    0 ≤ (analyzeKeywords t).score ∧ (analyzeKeywords t).score ≤ 100 := by
  rw [analyzeKeywords_score]
  exact ⟨le_min (by norm_num) (by positivity), min_le_left _ _⟩

theorem analyzeFormatting_score_bounds (t : String) :
    0 ≤ (analyzeFormatting t).score ∧ (analyzeFormatting t).score ≤ 100 := by
  rw [analyzeFormatting_score]
  constructor
  · exact add_nonneg (add_nonneg (add_nonneg (cond_zero_nonneg _ _ (by norm_num))
      (cond_zero_nonneg _ _ (by norm_num))) (cond_zero_nonneg _ _ (by norm_num)))
      (cond_zero_nonneg _ _ (by norm_num))
  · exact le_trans (add_le_add (add_le_add (add_le_add (cond_zero_le _ _ (by norm_num))
      (cond_zero_le _ _ (by norm_num))) (cond_zero_le _ _ (by norm_num)))
      (cond_zero_le _ _ (by norm_num))) (by norm_num)

theorem analyzeContent_score_bounds (t : String) :
    0 ≤ (analyzeContent t).score ∧ (analyzeContent t).score ≤ 100 := by
  rw [analyzeContent_score]
  constructor
  · exact add_nonneg (add_nonneg (add_nonneg (cond_zero_nonneg _ _ (by norm_num))
      (cond_zero_nonneg _ _ (by norm_num))) (cond_zero_nonneg _ _ (by norm_num)))
      (ite_zero_nonneg _ _ (by norm_num))
  · exact le_trans (add_le_add (add_le_add (add_le_add (cond_zero_le _ _ (by norm_num))
      (cond_zero_le _ _ (by norm_num))) (cond_zero_le _ _ (by norm_num)))
      (ite_zero_le _ _ (by norm_num))) (by norm_num)

theorem analyzeTechnicalSkills_score_bounds (t : String) :
    0 ≤ (analyzeTechnicalSkills t).score ∧ (analyzeTechnicalSkills t).score ≤ 100 := by
  rw [analyzeTechnicalSkills_score]
  exact ⟨le_min (by norm_num) (by positivity), min_le_left _ _⟩

theorem analyzeHeadline_score_bounds (h : String) :
    0 ≤ (analyzeHeadline h).score ∧ (analyzeHeadline h).score ≤ 100 := by
  rw [analyzeHeadline_score]
  constructor
  · exact add_nonneg (add_nonneg (cond_zero_nonneg _ _ (by norm_num))
      (cond_zero_nonneg _ _ (by norm_num))) (ite_zero_nonneg _ _ (by norm_num))
  · exact le_trans (add_le_add (add_le_add (cond_zero_le _ _ (by norm_num))
      (cond_zero_le _ _ (by norm_num))) (ite_zero_le _ _ (by norm_num))) (by norm_num)

theorem analyzeSummary_score_bounds (s : String) :
    0 ≤ (analyzeSummary s).score ∧ (analyzeSummary s).score ≤ 100 := by
  rw [analyzeSummary_score]
  constructor
  · exact add_nonneg (add_nonneg (add_nonneg (cond_zero_nonneg _ _ (by norm_num))
      (cond_zero_nonneg _ _ (by norm_num))) (cond_zero_nonneg _ _ (by norm_num)))
      (ite_zero_nonneg _ _ (by norm_num))
  · exact le_trans (add_le_add (add_le_add (add_le_add (cond_zero_le _ _ (by norm_num))
      (cond_zero_le _ _ (by norm_num))) (cond_zero_le _ _ (by norm_num)))
      (ite_zero_le _ _ (by norm_num))) (by norm_num)

theorem analyzeExperience_score_bounds (e : List ExperienceItem) :
    0 ≤ (analyzeExperience e).score ∧ (analyzeExperience e).score ≤ 100 := by
  rw [analyzeExperience_score]
  constructor
  · exact add_nonneg (add_nonneg (add_nonneg (cond_zero_nonneg _ _ (by norm_num))
      (cond_zero_nonneg _ _ (by norm_num))) (cond_zero_nonneg _ _ (by norm_num)))
      (ite_zero_nonneg _ _ (by norm_num))
  · exact le_trans (add_le_add (add_le_add (add_le_add (cond_zero_le _ _ (by norm_num))
      (cond_zero_le _ _ (by norm_num))) (cond_zero_le _ _ (by norm_num)))
      (ite_zero_le _ _ (by norm_num))) (by norm_num)

theorem analyzeSkills_score_bounds (sk : List String) :
    0 ≤ (analyzeSkills sk).score ∧ (analyzeSkills sk).score ≤ 100 := by
  rw [analyzeSkills_score]
  constructor
  · exact add_nonneg (add_nonneg (cond_zero_nonneg _ _ (by norm_num))
      (cond_zero_nonneg _ _ (by norm_num))) (ite_zero_nonneg _ _ (by norm_num))
  · exact le_trans (add_le_add (add_le_add (cond_zero_le _ _ (by norm_num))
      (cond_zero_le _ _ (by norm_num))) (ite_zero_le _ _ (by norm_num))) (by norm_num)

theorem analyzeEngagement_score_bounds (p : ProfileData) :
    0 ≤ (analyzeEngagement p).score ∧ (analyzeEngagement p).score ≤ 100 := by
  rw [analyzeEngagement_score]
  split_ifs <;> norm_num

/-- C5: every category scorer (CV: keywords, formatting, content, technical;
LinkedIn: headline, summary, experience, skills, engagement) is a total
function whose score lies in [0,100] for every input, and empty résumé text
yields all Boolean facts false, empty keyword/skill lists, and every CV
sub-score equal to 0. -/
theorem C5_scorers_total_and_bounded :
    (∀ t : String,
        (0 ≤ (analyzeKeywords t).score ∧ (analyzeKeywords t).score ≤ 100)
      ∧ (0 ≤ (analyzeFormatting t).score ∧ (analyzeFormatting t).score ≤ 100)
      ∧ (0 ≤ (analyzeContent t).score ∧ (analyzeContent t).score ≤ 100)
      ∧ (0 ≤ (analyzeTechnicalSkills t).score ∧ (analyzeTechnicalSkills t).score ≤ 100))
    ∧ (∀ h : String, 0 ≤ (analyzeHeadline h).score ∧ (analyzeHeadline h).score ≤ 100)
    ∧ (∀ s : String, 0 ≤ (analyzeSummary s).score ∧ (analyzeSummary s).score ≤ 100)
    ∧ (∀ e : List ExperienceItem,
        0 ≤ (analyzeExperience e).score ∧ (analyzeExperience e).score ≤ 100)
    ∧ (∀ sk : List String, 0 ≤ (analyzeSkills sk).score ∧ (analyzeSkills sk).score ≤ 100)
    ∧ (∀ p : ProfileData,
        0 ≤ (analyzeEngagement p).score ∧ (analyzeEngagement p).score ≤ 100)
    ∧ ((analyzeKeywords "").found = [] ∧ (analyzeKeywords "").score = 0)
    ∧ ((analyzeFormatting "").hasProperSections = false
        ∧ (analyzeFormatting "").hasContactInfo = false
        ∧ (analyzeFormatting "").hasSkillsSection = false
        ∧ (analyzeFormatting "").hasExperienceSection = false
        ∧ (analyzeFormatting "").score = 0)
    ∧ ((analyzeContent "").hasQuantifiableAchievements = false
        ∧ (analyzeContent "").hasRelevantExperience = false
        ∧ (analyzeContent "").hasEducationSection = false
        ∧ (analyzeContent "").score = 0)
    ∧ ((analyzeTechnicalSkills "").programmingLanguages = []
        ∧ (analyzeTechnicalSkills "").frameworks = []
        ∧ (analyzeTechnicalSkills "").tools = []
        ∧ (analyzeTechnicalSkills "").databases = []
        ∧ (analyzeTechnicalSkills "").score = 0) := by
  refine ⟨fun t => ⟨analyzeKeywords_score_bounds t, analyzeFormatting_score_bounds t,
      analyzeContent_score_bounds t, analyzeTechnicalSkills_score_bounds t⟩,
    analyzeHeadline_score_bounds, analyzeSummary_score_bounds,
    analyzeExperience_score_bounds, analyzeSkills_score_bounds,
    analyzeEngagement_score_bounds, ⟨by decide, ?_⟩,
    ⟨by decide, by decide, by decide, by decide, ?_⟩,
    ⟨by decide, by decide, by decide, ?_⟩,
    ⟨by decide, by decide, by decide, by decide, ?_⟩⟩
  · rw [analyzeKeywords_score, (by decide : (analyzeKeywords "").found = [])]
    norm_num
  · rw [analyzeFormatting_score,
      (by decide : (analyzeFormatting "").hasContactInfo = false),
      (by decide : (analyzeFormatting "").hasSkillsSection = false),
      (by decide : (analyzeFormatting "").hasExperienceSection = false),
      (by decide : (analyzeFormatting "").hasProperSections = false)]
    norm_num
  · rw [analyzeContent_score,
      (by decide : (analyzeContent "").hasQuantifiableAchievements = false),
      (by decide : (analyzeContent "").hasRelevantExperience = false),
      (by decide : (analyzeContent "").hasEducationSection = false),
      (by decide : (analyzeContent "").wordCount = 1)]
    norm_num
  · rw [analyzeTechnicalSkills_score,
      (by decide : (analyzeTechnicalSkills "").programmingLanguages = []),
      (by decide : (analyzeTechnicalSkills "").frameworks = []),
      (by decide : (analyzeTechnicalSkills "").tools = []),
      (by decide : (analyzeTechnicalSkills "").databases = [])]
    norm_num

/-- C9: for every profile input the engagement scorer's recent-activity and
recommendations facts are unconditionally true, so its score is at least 60
and in particular never 0. -/
theorem C9_engagement_score_floor (p : ProfileData) :
    (analyzeEngagement p).hasRecentActivity = true
    ∧ (analyzeEngagement p).hasRecommendations = true
    ∧ 60 ≤ (analyzeEngagement p).score
    ∧ (analyzeEngagement p).score ≠ 0 := by
  refine ⟨rfl, rfl, ?_, ?_⟩
  · rw [analyzeEngagement_score]; split_ifs <;> norm_num
  · rw [analyzeEngagement_score]; split_ifs <;> norm_num

/-- C1: calculateATSScore and calculateOptimizationScore return the weighted
composite round(Σ weight_i · score_i) with rounding half away from zero
(identical to the code's Math.round on the nonnegative sub-scores every
analysis carries), a missing sub-score read as 0, and a document with no
sub-scores scoring 0. -/
theorem C1_composite_score_formula :
    (∀ s : CVScoreFields,
      0 ≤ orZero s.keywords → 0 ≤ orZero s.formatting → 0 ≤ orZero s.content →
      0 ≤ orZero s.technical →
      calculateATSScore s
        = roundHalfAwayFromZero (0.35 * orZero s.keywords + 0.25 * orZero s.formatting
            + 0.25 * orZero s.content + 0.15 * orZero s.technical))
    ∧ (∀ s : LIScoreFields,
      0 ≤ orZero s.headline → 0 ≤ orZero s.summary → 0 ≤ orZero s.experience →
      0 ≤ orZero s.skills → 0 ≤ orZero s.engagement →
      calculateOptimizationScore s
        = roundHalfAwayFromZero (0.25 * orZero s.headline + 0.25 * orZero s.summary
            + 0.25 * orZero s.experience + 0.15 * orZero s.skills
            + 0.10 * orZero s.engagement))
    ∧ calculateATSScore ⟨none, none, none, none⟩ = 0
    ∧ calculateOptimizationScore ⟨none, none, none, none, none⟩ = 0 := by
  refine ⟨fun s h1 h2 h3 h4 => ?_, fun s h1 h2 h3 h4 h5 => ?_, ?_, ?_⟩
  · have hsum : 0 ≤ 0.35 * orZero s.keywords + 0.25 * orZero s.formatting
        + 0.25 * orZero s.content + 0.15 * orZero s.technical := by
      have := mul_nonneg (by norm_num : (0:ℚ) ≤ 0.35) h1
      have := mul_nonneg (by norm_num : (0:ℚ) ≤ 0.25) h2
      have := mul_nonneg (by norm_num : (0:ℚ) ≤ 0.25) h3
      have := mul_nonneg (by norm_num : (0:ℚ) ≤ 0.15) h4
      linarith
    rw [roundHalfAwayFromZero, if_pos hsum]
    unfold calculateATSScore jsRound
    congr 1
    ring
  · have hsum : 0 ≤ 0.25 * orZero s.headline + 0.25 * orZero s.summary
        + 0.25 * orZero s.experience + 0.15 * orZero s.skills
        + 0.10 * orZero s.engagement := by
      have := mul_nonneg (by norm_num : (0:ℚ) ≤ 0.25) h1
      have := mul_nonneg (by norm_num : (0:ℚ) ≤ 0.25) h2
      have := mul_nonneg (by norm_num : (0:ℚ) ≤ 0.25) h3
      have := mul_nonneg (by norm_num : (0:ℚ) ≤ 0.15) h4
      have := mul_nonneg (by norm_num : (0:ℚ) ≤ 0.10) h5
      linarith
    rw [roundHalfAwayFromZero, if_pos hsum]
    unfold calculateOptimizationScore jsRound
    congr 1
    ring
  · norm_num [calculateATSScore, orZero, jsRound]
  · norm_num [calculateOptimizationScore, orZero, jsRound]

/-- C1 witness: the CV formula at sub-scores 80/60/70/50 (composite 68) and
the LinkedIn formula at 80/60/70/50/90 (composite 69). -/
theorem C1_composite_score_formula_witness :
    calculateATSScore ⟨some 80, some 60, some 70, some 50⟩
      = roundHalfAwayFromZero (0.35 * orZero (some 80) + 0.25 * orZero (some 60)
          + 0.25 * orZero (some 70) + 0.15 * orZero (some 50))
    ∧ calculateOptimizationScore ⟨some 80, some 60, some 70, some 50, some 90⟩
      = roundHalfAwayFromZero (0.25 * orZero (some 80) + 0.25 * orZero (some 60)
          + 0.25 * orZero (some 70) + 0.15 * orZero (some 50)
          + 0.10 * orZero (some 90)) :=
  ⟨C1_composite_score_formula.1 ⟨some 80, some 60, some 70, some 50⟩
      (by norm_num [orZero]) (by norm_num [orZero]) (by norm_num [orZero])
      (by norm_num [orZero]),
   C1_composite_score_formula.2.1 ⟨some 80, some 60, some 70, some 50, some 90⟩
      (by norm_num [orZero]) (by norm_num [orZero]) (by norm_num [orZero])
      (by norm_num [orZero]) (by norm_num [orZero])⟩

/-- C2: for a user whose plan has not expired, the gate on scan actions is:
free denies; one-time allows iff the matching counter is below 1; basic
allows iff it is below 5; pro always allows. -/
theorem C2_gate_scan_limits (now : ℤ) (u : User)
    (hexp : planExpired now u.planExpiresAt = false) :
    (u.plan = .free → canPerformAction now u "cv_scan" = false
      ∧ canPerformAction now u "linkedin_scan" = false)
    ∧ (u.plan = .oneTime →
        (canPerformAction now u "cv_scan" = true ↔ u.usage.cvScans < 1)
        ∧ (canPerformAction now u "linkedin_scan" = true ↔ u.usage.linkedinScans < 1))
    ∧ (u.plan = .basic →
        (canPerformAction now u "cv_scan" = true ↔ u.usage.cvScans < 5)
        ∧ (canPerformAction now u "linkedin_scan" = true ↔ u.usage.linkedinScans < 5))
    ∧ (u.plan = .pro → canPerformAction now u "cv_scan" = true
        ∧ canPerformAction now u "linkedin_scan" = true) := by
  have e1 : ("cv_scan" == "cv_scan") = true := by decide
  have e2 : ("linkedin_scan" == "cv_scan") = false := by decide
  have e3 : ("linkedin_scan" == "linkedin_scan") = true := by decide
  refine ⟨fun h => ?_, fun h => ?_, fun h => ?_, fun h => ?_⟩ <;>
    constructor <;>
    simp [canPerformAction, hexp, h, e1, e2, e3]

/-- C2 witness: a basic-plan user with 4 CV scans is allowed, with 5 denied;
a one-time user with 0 is allowed, with 1 denied. -/
theorem C2_gate_scan_limits_witness :
    canPerformAction 0 ⟨.basic, "active", none, none, none, ⟨4, 0, 0⟩⟩ "cv_scan" = true
    ∧ canPerformAction 0 ⟨.basic, "active", none, none, none, ⟨5, 0, 0⟩⟩ "cv_scan" = false
    ∧ canPerformAction 0 ⟨.oneTime, "active", none, none, none, ⟨0, 0, 0⟩⟩ "cv_scan" = true
    ∧ canPerformAction 0 ⟨.oneTime, "active", none, none, none, ⟨1, 0, 0⟩⟩ "cv_scan" = false := by
  have h4 := (C2_gate_scan_limits 0 ⟨.basic, "active", none, none, none, ⟨4, 0, 0⟩⟩
    (by decide)).2.2.1 rfl
  have h5 := (C2_gate_scan_limits 0 ⟨.basic, "active", none, none, none, ⟨5, 0, 0⟩⟩
    (by decide)).2.2.1 rfl
  have h0 := (C2_gate_scan_limits 0 ⟨.oneTime, "active", none, none, none, ⟨0, 0, 0⟩⟩
    (by decide)).2.1 rfl
  have h1 := (C2_gate_scan_limits 0 ⟨.oneTime, "active", none, none, none, ⟨1, 0, 0⟩⟩
    (by decide)).2.1 rfl
  refine ⟨h4.1.mpr (by norm_num), ?_, h0.1.mpr (by norm_num), ?_⟩
  · have := h5.1
    cases hb : canPerformAction 0 ⟨.basic, "active", none, none, none, ⟨5, 0, 0⟩⟩ "cv_scan"
    · rfl
    · exact absurd (this.mp hb) (by norm_num)
  · have := h1.1
    cases hb : canPerformAction 0 ⟨.oneTime, "active", none, none, none, ⟨1, 0, 0⟩⟩ "cv_scan"
    · rfl
    · exact absurd (this.mp hb) (by norm_num)

/-- C4: a set planExpiresAt earlier than the current time makes
canPerformAction return false for every action string, regardless of plan
and counters. -/
theorem C4_expired_plan_denies_everything (now t : ℤ) (u : User) (action : String)
    (hset : u.planExpiresAt = some t) (hpast : t < now) :
    canPerformAction now u action = false := by
  have hexp : planExpired now u.planExpiresAt = true := by
    unfold planExpired
    rw [hset]
    simpa using hpast
  unfold canPerformAction
  rw [hexp]
  rfl

/-- C4 witness: a pro user with zero counters and an expiry in the past is
denied an arbitrary action. -/
theorem C4_expired_plan_denies_everything_witness :
    canPerformAction 10 ⟨.pro, "active", none, none, some 5, ⟨0, 0, 0⟩⟩ "cv_scan" = false :=
  C4_expired_plan_denies_everything 10 5 ⟨.pro, "active", none, none, some 5, ⟨0, 0, 0⟩⟩
    "cv_scan" rfl (by norm_num)

/-- C6: the subscription-expired transition sets plan = free and
planStatus = "expired" (a value the schema enum accepts, so the save
persists), and the gate then denies both scan actions for every state and
time. -/
theorem C6_subscription_expired_downgrades (u : User) (now : ℤ) :
    (handleSubscriptionExpired u).plan = .free
    ∧ (handleSubscriptionExpired u).planStatus = "expired"
    ∧ saveUser (handleSubscriptionExpired u) = some (handleSubscriptionExpired u)
    ∧ canPerformAction now (handleSubscriptionExpired u) "cv_scan" = false
    ∧ canPerformAction now (handleSubscriptionExpired u) "linkedin_scan" = false := by
  refine ⟨rfl, rfl, ?_, ?_, ?_⟩
  · unfold saveUser
    have hv : isValidUserPlanStatus (handleSubscriptionExpired u).planStatus = true := by
      show isValidUserPlanStatus "expired" = true
      decide
    rw [if_pos hv]
  · unfold canPerformAction
    split
    · rfl
    · rfl
  · unfold canPerformAction
    split
    · rfl
    · rfl

/-- C3: handleSubscriptionCreated resets the usage counters unconditionally
and records no event id, so re-delivering the same subscription-created
event wipes counters that were incremented after the first application:
after two scans the counters stand at 2, and the duplicate event resets
them to 0 instead of leaving them at their current value. -/
theorem C3_duplicate_subscription_created_resets_again :
    (incCvScans (incCvScans (handleSubscriptionCreated ⟨"v1", "v2", "v3"⟩
        ⟨"sub1", "cust1", "v3", "active", 1000⟩
        ⟨.free, "active", none, none, none, ⟨0, 0, 0⟩⟩))).usage.cvScans = 2
    ∧ (handleSubscriptionCreated ⟨"v1", "v2", "v3"⟩ ⟨"sub1", "cust1", "v3", "active", 1000⟩
        (incCvScans (incCvScans (handleSubscriptionCreated ⟨"v1", "v2", "v3"⟩
          ⟨"sub1", "cust1", "v3", "active", 1000⟩
          ⟨.free, "active", none, none, none, ⟨0, 0, 0⟩⟩)))).usage.cvScans = 0 := by
  decide

/-- C7: handleSubscriptionPaymentFailed writes planStatus = "past_due", but
"past_due" is not among the User schema's planStatus enum values
(active, cancelled, expired, pending), so the mongoose save fails
validation and the update is never persisted. -/
theorem C7_payment_failed_status_rejected_by_schema :
    (handleSubscriptionPaymentFailed
        ⟨.pro, "active", some "sub1", none, none, ⟨0, 0, 0⟩⟩).planStatus = "past_due"
    ∧ isValidUserPlanStatus "past_due" = false
    ∧ saveUser (handleSubscriptionPaymentFailed
        ⟨.pro, "active", some "sub1", none, none, ⟨0, 0, 0⟩⟩) = none := by
  decide

/-! ### Evaluation of the pipeline on two concrete optimized texts,
used by the compare-endpoint results below. -/

theorem demoText_keywords_score :
    (performATSAnalysis "email skills experience").keywords.score = 0 := by
  rw [show (performATSAnalysis "email skills experience").keywords.score
      = (analyzeKeywords "email skills experience").score from rfl,
    analyzeKeywords_score,
    (by decide : (analyzeKeywords "email skills experience").found = [])]
  norm_num

theorem demoText_formatting_score :
    (performATSAnalysis "email skills experience").formatting.score = 100 := by
  rw [show (performATSAnalysis "email skills experience").formatting.score
      = (analyzeFormatting "email skills experience").score from rfl,
    analyzeFormatting_score,
    (by decide : (analyzeFormatting "email skills experience").hasContactInfo = true),
    (by decide : (analyzeFormatting "email skills experience").hasSkillsSection = true),
    (by decide : (analyzeFormatting "email skills experience").hasExperienceSection = true),
    (by decide : (analyzeFormatting "email skills experience").hasProperSections = true)]
  norm_num

theorem demoText_content_score :
    (performATSAnalysis "email skills experience").content.score = 0 := by
  rw [show (performATSAnalysis "email skills experience").content.score
      = (analyzeContent "email skills experience").score from rfl,
    analyzeContent_score,
    (by decide : (analyzeContent "email skills experience").hasQuantifiableAchievements = false),
    (by decide : (analyzeContent "email skills experience").hasRelevantExperience = false),
    (by decide : (analyzeContent "email skills experience").hasEducationSection = false),
    (by decide : (analyzeContent "email skills experience").wordCount = 3)]
  norm_num

theorem demoText_technical_score :
    (performATSAnalysis "email skills experience").technical.score = 0 := by
  rw [show (performATSAnalysis "email skills experience").technical.score
      = (analyzeTechnicalSkills "email skills experience").score from rfl,
    analyzeTechnicalSkills_score,
    (by decide : (analyzeTechnicalSkills "email skills experience").programmingLanguages = []),
    (by decide : (analyzeTechnicalSkills "email skills experience").frameworks = []),
    (by decide : (analyzeTechnicalSkills "email skills experience").tools = []),
    (by decide : (analyzeTechnicalSkills "email skills experience").databases = [])]
  norm_num

/-- C8 counterexample: a stored CV analysis whose formatting sub-score is 50
while the optimized text "email skills experience" re-scores formatting at
100 (an increase) gets an empty improvement-label list from the compare
handler, because the handler never checks the formatting category.  The
claim that every increased category gets a label is therefore false. -/
theorem C8_compare_counterexample :
    cvCompare ⟨13,
        ⟨⟨[], [], 0⟩, ⟨false, true, false, true, 50⟩, ⟨false, false, false, 0, 0⟩,
          ⟨[], [], [], [], 0⟩⟩,
        some "email skills experience"⟩
      = Except.ok ⟨13, 25, 12, []⟩
    ∧ (⟨13,
        ⟨⟨[], [], 0⟩, ⟨false, true, false, true, 50⟩, ⟨false, false, false, 0, 0⟩,
          ⟨[], [], [], [], 0⟩⟩,
        some "email skills experience"⟩ : CVStoredDoc).analysis.formatting.score = 50
    ∧ (50 : ℚ) < (performATSAnalysis "email skills experience").formatting.score := by
  refine ⟨?_, rfl, ?_⟩
  · have h0 : cvCompare ⟨13,
        ⟨⟨[], [], 0⟩, ⟨false, true, false, true, 50⟩, ⟨false, false, false, 0, 0⟩,
          ⟨[], [], [], [], 0⟩⟩,
        some "email skills experience"⟩
      = Except.ok
          { beforeScore := 13,
            afterScore := jsRound
              ((performATSAnalysis "email skills experience").keywords.score * 0.35
                + (performATSAnalysis "email skills experience").formatting.score * 0.25
                + (performATSAnalysis "email skills experience").content.score * 0.25
                + (performATSAnalysis "email skills experience").technical.score * 0.15),
            improvement := jsRound
              ((performATSAnalysis "email skills experience").keywords.score * 0.35
                + (performATSAnalysis "email skills experience").formatting.score * 0.25
                + (performATSAnalysis "email skills experience").content.score * 0.25
                + (performATSAnalysis "email skills experience").technical.score * 0.15) - 13,
            improvements :=
              (if (performATSAnalysis "email skills experience").keywords.score > (0:ℚ) then
                ["Improved keyword optimization"] else [])
              ++ (if (performATSAnalysis "email skills experience").content.score > (0:ℚ) then
                ["Enhanced content quality"] else [])
              ++ (if (performATSAnalysis "email skills experience").technical.score > (0:ℚ) then
                ["Better technical skills presentation"] else []) } := rfl
    rw [h0, demoText_keywords_score, demoText_formatting_score, demoText_content_score,
      demoText_technical_score]
    norm_num [jsRound]
  · rw [demoText_formatting_score]
    norm_num

/-- C8 amended: whenever compare succeeds, improvement equals
afterScore − beforeScore with afterScore re-derived from the optimized
content, and the improvement-label list holds a label for a category
exactly when that category's re-computed sub-score exceeds the stored one
— but only for the categories the handlers actually check: keywords,
content and technical for CVs (formatting is never labelled) and headline,
summary and skills for LinkedIn (experience and engagement are never
labelled); no other label can appear. -/
theorem C8_compare_amended :
    (∀ (doc : CVStoredDoc) (r : CompareResult), cvCompare doc = .ok r →
      r.beforeScore = doc.atsScore
      ∧ r.improvement = r.afterScore - r.beforeScore
      ∧ (("Improved keyword optimization" ∈ r.improvements)
          ↔ (performATSAnalysis (doc.optimizedText.getD "")).keywords.score
              > doc.analysis.keywords.score)
      ∧ (("Enhanced content quality" ∈ r.improvements)
          ↔ (performATSAnalysis (doc.optimizedText.getD "")).content.score
              > doc.analysis.content.score)
      ∧ (("Better technical skills presentation" ∈ r.improvements)
          ↔ (performATSAnalysis (doc.optimizedText.getD "")).technical.score
              > doc.analysis.technical.score)
      ∧ (∀ lbl ∈ r.improvements,
          lbl = "Improved keyword optimization" ∨ lbl = "Enhanced content quality"
          ∨ lbl = "Better technical skills presentation"))
    ∧ (∀ (doc : LIStoredDoc) (oc : OptimizedContent) (r : CompareResult),
        doc.optimizedContent = some oc → liCompare doc = .ok r →
      r.beforeScore = doc.optimizationScore
      ∧ r.improvement = r.afterScore - r.beforeScore
      ∧ (("Improved headline optimization" ∈ r.improvements)
          ↔ (performLinkedInAnalysis
              { doc.profileData with headline := oc.headline, summary := oc.summary
                }).headline.score > doc.analysis.headline.score)
      ∧ (("Enhanced summary content" ∈ r.improvements)
          ↔ (performLinkedInAnalysis
              { doc.profileData with headline := oc.headline, summary := oc.summary
                }).summary.score > doc.analysis.summary.score)
      ∧ (("Better skills presentation" ∈ r.improvements)
          ↔ (performLinkedInAnalysis
              { doc.profileData with headline := oc.headline, summary := oc.summary
                }).skills.score > doc.analysis.skills.score)
      ∧ (∀ lbl ∈ r.improvements,
          lbl = "Improved headline optimization" ∨ lbl = "Enhanced summary content"
          ∨ lbl = "Better skills presentation")) := by
  constructor
  · intro doc r h
    simp only [cvCompare] at h
    rcases hopt : doc.optimizedText with _ | text
    · simp only [hopt] at h
      exact absurd h (by simp)
    · simp only [hopt] at h
      by_cases he : (text == "") = true
      · rw [if_pos he] at h
        exact absurd h (by simp)
      · rw [if_neg he] at h
        injection h with h
        subst h
        simp only [hopt, Option.getD_some]
        refine ⟨trivial, trivial, ?_, ?_, ?_, ?_⟩ <;>
          split_ifs <;>
          simp_all
  · intro doc oc r hoc h
    simp only [liCompare] at h
    simp only [hoc] at h
    by_cases he : (!truthyStr oc.headline) = true
    · rw [if_pos he] at h
      exact absurd h (by simp)
    · rw [if_neg he] at h
      injection h with h
      subst h
      refine ⟨rfl, rfl, ?_, ?_, ?_, ?_⟩ <;>
        split_ifs <;>
        simp_all

theorem tinyText_keywords_score : (performATSAnalysis "a").keywords.score = 0 := by
  rw [show (performATSAnalysis "a").keywords.score = (analyzeKeywords "a").score from rfl,
    analyzeKeywords_score, (by decide : (analyzeKeywords "a").found = [])]
  norm_num

theorem tinyText_formatting_score : (performATSAnalysis "a").formatting.score = 0 := by
  rw [show (performATSAnalysis "a").formatting.score = (analyzeFormatting "a").score from rfl,
    analyzeFormatting_score,
    (by decide : (analyzeFormatting "a").hasContactInfo = false),
    (by decide : (analyzeFormatting "a").hasSkillsSection = false),
    (by decide : (analyzeFormatting "a").hasExperienceSection = false),
    (by decide : (analyzeFormatting "a").hasProperSections = false)]
  norm_num

theorem tinyText_content_score : (performATSAnalysis "a").content.score = 0 := by
  rw [show (performATSAnalysis "a").content.score = (analyzeContent "a").score from rfl,
    analyzeContent_score,
    (by decide : (analyzeContent "a").hasQuantifiableAchievements = false),
    (by decide : (analyzeContent "a").hasRelevantExperience = false),
    (by decide : (analyzeContent "a").hasEducationSection = false),
    (by decide : (analyzeContent "a").wordCount = 1)]
  norm_num

theorem tinyText_technical_score : (performATSAnalysis "a").technical.score = 0 := by
  rw [show (performATSAnalysis "a").technical.score = (analyzeTechnicalSkills "a").score from rfl,
    analyzeTechnicalSkills_score,
    (by decide : (analyzeTechnicalSkills "a").programmingLanguages = []),
    (by decide : (analyzeTechnicalSkills "a").frameworks = []),
    (by decide : (analyzeTechnicalSkills "a").tools = []),
    (by decide : (analyzeTechnicalSkills "a").databases = [])]
  norm_num

theorem tinyProfile_headline_score :
    (performLinkedInAnalysis ⟨some "x", none, [], [], [], none, none⟩).headline.score = 0 := by
  rw [show (performLinkedInAnalysis ⟨some "x", none, [], [], [], none, none⟩).headline.score
      = (analyzeHeadline "x").score from rfl,
    analyzeHeadline_score,
    (by decide : (analyzeHeadline "x").hasKeywords = false),
    (by decide : (analyzeHeadline "x").isCompelling = false),
    (by decide : (analyzeHeadline "x").length = 1)]
  norm_num

theorem tinyProfile_summary_score :
    (performLinkedInAnalysis ⟨some "x", none, [], [], [], none, none⟩).summary.score = 0 := by
  rw [show (performLinkedInAnalysis ⟨some "x", none, [], [], [], none, none⟩).summary.score
      = (analyzeSummary "").score from rfl,
    analyzeSummary_score,
    (by decide : (analyzeSummary "").hasCallToAction = false),
    (by decide : (analyzeSummary "").hasKeywords = false),
    (by decide : (analyzeSummary "").hasAchievements = false),
    (by decide : (analyzeSummary "").length = 0)]
  norm_num

theorem tinyProfile_experience_score :
    (performLinkedInAnalysis ⟨some "x", none, [], [], [], none, none⟩).experience.score = 0 := by
  rw [show (performLinkedInAnalysis ⟨some "x", none, [], [], [], none, none⟩).experience.score
      = (analyzeExperience []).score from rfl,
    analyzeExperience_score,
    (by decide : (analyzeExperience []).hasQuantifiableResults = false),
    (by decide : (analyzeExperience []).hasRelevantKeywords = false),
    (by decide : (analyzeExperience []).isWellStructured = false),
    (by decide : (analyzeExperience []).count = 0)]
  norm_num

theorem tinyProfile_skills_score :
    (performLinkedInAnalysis ⟨some "x", none, [], [], [], none, none⟩).skills.score = 0 := by
  rw [show (performLinkedInAnalysis ⟨some "x", none, [], [], [], none, none⟩).skills.score
      = (analyzeSkills []).score from rfl,
    analyzeSkills_score,
    (by decide : (analyzeSkills []).hasRelevantSkills = false),
    (by decide : (analyzeSkills []).hasTechnicalSkills = false),
    (by decide : (analyzeSkills []).count = 0)]
  norm_num

theorem tinyProfile_engagement_score :
    (performLinkedInAnalysis ⟨some "x", none, [], [], [], none, none⟩).engagement.score = 60 := by
  rw [show (performLinkedInAnalysis ⟨some "x", none, [], [], [], none, none⟩).engagement.score
      = (analyzeEngagement ⟨some "x", none, [], [], [], none, none⟩).score from rfl,
    analyzeEngagement_score,
    (by decide : (analyzeEngagement ⟨some "x", none, [], [], [], none, none⟩).connectionCount = 0)]
  norm_num

/-- C8 amended witness: both compare handlers, run on concrete stored
documents, return an improvement equal to afterScore minus beforeScore. -/
theorem C8_compare_amended_witness :
    ((⟨0, 0, 0, ([] : List String)⟩ : CompareResult).improvement
      = (⟨0, 0, 0, ([] : List String)⟩ : CompareResult).afterScore
        - (⟨0, 0, 0, ([] : List String)⟩ : CompareResult).beforeScore)
    ∧ ((⟨7, 6, -1, ([] : List String)⟩ : CompareResult).improvement
      = (⟨7, 6, -1, ([] : List String)⟩ : CompareResult).afterScore
        - (⟨7, 6, -1, ([] : List String)⟩ : CompareResult).beforeScore) := by
  have hcv : cvCompare ⟨0,
      ⟨⟨[], [], 0⟩, ⟨false, false, false, false, 0⟩, ⟨false, false, false, 0, 0⟩,
        ⟨[], [], [], [], 0⟩⟩, some "a"⟩ = Except.ok ⟨0, 0, 0, []⟩ := by
    have h0 : cvCompare ⟨0,
        ⟨⟨[], [], 0⟩, ⟨false, false, false, false, 0⟩, ⟨false, false, false, 0, 0⟩,
          ⟨[], [], [], [], 0⟩⟩, some "a"⟩
      = Except.ok
          { beforeScore := 0,
            afterScore := jsRound ((performATSAnalysis "a").keywords.score * 0.35
              + (performATSAnalysis "a").formatting.score * 0.25
              + (performATSAnalysis "a").content.score * 0.25
              + (performATSAnalysis "a").technical.score * 0.15),
            improvement := jsRound ((performATSAnalysis "a").keywords.score * 0.35
              + (performATSAnalysis "a").formatting.score * 0.25
              + (performATSAnalysis "a").content.score * 0.25
              + (performATSAnalysis "a").technical.score * 0.15) - 0,
            improvements :=
              (if (performATSAnalysis "a").keywords.score > (0:ℚ) then
                ["Improved keyword optimization"] else [])
              ++ (if (performATSAnalysis "a").content.score > (0:ℚ) then
                ["Enhanced content quality"] else [])
              ++ (if (performATSAnalysis "a").technical.score > (0:ℚ) then
                ["Better technical skills presentation"] else []) } := rfl
    rw [h0, tinyText_keywords_score, tinyText_formatting_score, tinyText_content_score,
      tinyText_technical_score]
    norm_num [jsRound]
  have hli : liCompare ⟨7,
      ⟨⟨false, false, 0, 0⟩, ⟨false, false, false, 0, 0⟩, ⟨false, false, false, 0, 0⟩,
        ⟨false, false, 0, 0⟩, ⟨true, true, 0, 60⟩⟩,
      ⟨none, none, [], [], [], none, none⟩, some ⟨some "x", none⟩⟩
      = Except.ok ⟨7, 6, -1, []⟩ := by
    have h0 : liCompare ⟨7,
        ⟨⟨false, false, 0, 0⟩, ⟨false, false, false, 0, 0⟩, ⟨false, false, false, 0, 0⟩,
          ⟨false, false, 0, 0⟩, ⟨true, true, 0, 60⟩⟩,
        ⟨none, none, [], [], [], none, none⟩, some ⟨some "x", none⟩⟩
      = Except.ok
          { beforeScore := 7,
            afterScore := jsRound
              ((performLinkedInAnalysis ⟨some "x", none, [], [], [], none, none⟩).headline.score * 0.25
                + (performLinkedInAnalysis ⟨some "x", none, [], [], [], none, none⟩).summary.score * 0.25
                + (performLinkedInAnalysis ⟨some "x", none, [], [], [], none, none⟩).experience.score * 0.25
                + (performLinkedInAnalysis ⟨some "x", none, [], [], [], none, none⟩).skills.score * 0.15
                + (performLinkedInAnalysis ⟨some "x", none, [], [], [], none, none⟩).engagement.score * 0.10),
            improvement := jsRound
              ((performLinkedInAnalysis ⟨some "x", none, [], [], [], none, none⟩).headline.score * 0.25
                + (performLinkedInAnalysis ⟨some "x", none, [], [], [], none, none⟩).summary.score * 0.25
                + (performLinkedInAnalysis ⟨some "x", none, [], [], [], none, none⟩).experience.score * 0.25
                + (performLinkedInAnalysis ⟨some "x", none, [], [], [], none, none⟩).skills.score * 0.15
                + (performLinkedInAnalysis ⟨some "x", none, [], [], [], none, none⟩).engagement.score * 0.10) - 7,
            improvements :=
              (if (performLinkedInAnalysis ⟨some "x", none, [], [], [], none, none⟩).headline.score > (0:ℚ) then
                ["Improved headline optimization"] else [])
              ++ (if (performLinkedInAnalysis ⟨some "x", none, [], [], [], none, none⟩).summary.score > (0:ℚ) then
                ["Enhanced summary content"] else [])
              ++ (if (performLinkedInAnalysis ⟨some "x", none, [], [], [], none, none⟩).skills.score > (0:ℚ) then
                ["Better skills presentation"] else []) } := rfl
    rw [h0, tinyProfile_headline_score, tinyProfile_summary_score,
      tinyProfile_experience_score, tinyProfile_skills_score, tinyProfile_engagement_score]
    norm_num [jsRound]
  exact ⟨(C8_compare_amended.1 ⟨0,
      ⟨⟨[], [], 0⟩, ⟨false, false, false, false, 0⟩, ⟨false, false, false, 0, 0⟩,
        ⟨[], [], [], [], 0⟩⟩, some "a"⟩ ⟨0, 0, 0, []⟩ hcv).2.1,
    (C8_compare_amended.2 ⟨7,
      ⟨⟨false, false, 0, 0⟩, ⟨false, false, false, 0, 0⟩, ⟨false, false, false, 0, 0⟩,
        ⟨false, false, 0, 0⟩, ⟨true, true, 0, 60⟩⟩,
      ⟨none, none, [], [], [], none, none⟩, some ⟨some "x", none⟩⟩
      ⟨some "x", none⟩ ⟨7, 6, -1, []⟩ rfl hli).2.1⟩

/-- C10 counterexample: a free-plan user's analyze request is rejected with
the plan-middleware error before any analysis runs (requirePlan on the
route excludes free), so the analyze endpoint never returns a truncated
analysis to a free user. -/
theorem C10_free_analyze_rejected :
    cvAnalyze 0 ⟨.free, "active", none, none, none, ⟨0, 0, 0⟩⟩ "Python developer resume"
      = Except.error "This feature requires one of the following plans: one-time, basic, pro" := by
  rfl

/-- C10 amended: the analyze endpoint never hands an analysis to a
free-plan user (the plan middleware rejects first), while the get-analysis
endpoint serves free users a truncated view: at most 2 suggestions, at
most 3 found and 3 missing keywords, a locked flag set true — all computed
in memory from the record, which itself is not modified. -/
theorem C10_free_plan_truncation :
    (∀ (now : ℤ) (u : User) (text : String), u.plan = .free →
      ∀ res : CVRecord × CVResponse, cvAnalyze now u text ≠ Except.ok res)
    ∧ (∀ (u : User) (rec : CVRecord), u.plan = .free →
        (getCvAnalysis u rec).suggestions = rec.suggestions.take 2
        ∧ (getCvAnalysis u rec).foundKeywords = rec.analysis.keywords.found.take 3
        ∧ (getCvAnalysis u rec).missingKeywords = rec.analysis.keywords.missing.take 3
        ∧ (getCvAnalysis u rec).locked = true
        ∧ (getCvAnalysis u rec).suggestions.length ≤ 2
        ∧ (getCvAnalysis u rec).foundKeywords.length ≤ 3
        ∧ (getCvAnalysis u rec).missingKeywords.length ≤ 3) := by
  constructor
  · intro now u text h res
    unfold cvAnalyze requirePlanAllows
    rw [h]
    rw [(by decide : ([Plan.oneTime, Plan.basic, Plan.pro].contains Plan.free) = false)]
    simp
  · intro u rec h
    unfold getCvAnalysis
    rw [if_pos h]
    refine ⟨rfl, rfl, rfl, rfl, ?_, ?_, ?_⟩ <;>
      simp [List.length_take]

/-- C10 amended witness: at a concrete free user and a stored record with
three suggestions and four keywords each way, analyze is denied and the
get-analysis view is truncated and locked. -/
theorem C10_free_plan_truncation_witness :
    (cvAnalyze 0 ⟨.free, "active", none, none, none, ⟨0, 0, 0⟩⟩ "text"
      ≠ Except.ok
        (⟨"text", 0,
            ⟨⟨[], [], 0⟩, ⟨false, false, false, false, 0⟩, ⟨false, false, false, 0, 0⟩,
              ⟨[], [], [], [], 0⟩⟩, []⟩,
          ⟨0, [], [], [], false⟩))
    ∧ (getCvAnalysis ⟨.free, "active", none, none, none, ⟨0, 0, 0⟩⟩
        ⟨"t", 5,
          ⟨⟨["a", "b", "c", "d"], ["e", "f", "g", "h"], 20⟩,
            ⟨false, false, false, false, 0⟩, ⟨false, false, false, 0, 0⟩,
            ⟨[], [], [], [], 0⟩⟩,
          [⟨"keywords", "high", "t1", "d1", 15⟩, ⟨"formatting", "high", "t2", "d2", 12⟩,
           ⟨"content", "medium", "t3", "d3", 10⟩]⟩).suggestions
        = [⟨"keywords", "high", "t1", "d1", 15⟩, ⟨"formatting", "high", "t2", "d2", 12⟩,
           ⟨"content", "medium", "t3", "d3", 10⟩].take 2
    ∧ (getCvAnalysis ⟨.free, "active", none, none, none, ⟨0, 0, 0⟩⟩
        ⟨"t", 5,
          ⟨⟨["a", "b", "c", "d"], ["e", "f", "g", "h"], 20⟩,
            ⟨false, false, false, false, 0⟩, ⟨false, false, false, 0, 0⟩,
            ⟨[], [], [], [], 0⟩⟩,
          [⟨"keywords", "high", "t1", "d1", 15⟩, ⟨"formatting", "high", "t2", "d2", 12⟩,
           ⟨"content", "medium", "t3", "d3", 10⟩]⟩).locked = true := by
  have h2 := C10_free_plan_truncation.2
    ⟨.free, "active", none, none, none, ⟨0, 0, 0⟩⟩
    ⟨"t", 5,
      ⟨⟨["a", "b", "c", "d"], ["e", "f", "g", "h"], 20⟩,
        ⟨false, false, false, false, 0⟩, ⟨false, false, false, 0, 0⟩,
        ⟨[], [], [], [], 0⟩⟩,
      [⟨"keywords", "high", "t1", "d1", 15⟩, ⟨"formatting", "high", "t2", "d2", 12⟩,
       ⟨"content", "medium", "t3", "d3", 10⟩]⟩ rfl
  exact ⟨C10_free_plan_truncation.1 0 ⟨.free, "active", none, none, none, ⟨0, 0, 0⟩⟩
      "text" rfl _, h2.1, h2.2.2.2.1⟩

end ATS
